import Mathlib

/-!
Shallow embedding of the TTLock Home Assistant integration's core state
logic (custom_components/ttlock/models.py and coordinator.py), together
with theorems settling the specification claims about it.

Python `datetime` values are modelled by the `DateTime` structure below,
carrying exactly the observations the code makes of them: `isoweekday()`,
`hour`, `minute`, and a linear timestamp (in seconds, rational to allow
sub-second differences) used for `(a - b).total_seconds()`.
-/

namespace TTLock

/-- Tri-state on/off enum from models.py; Python truthiness is `== on`. -/
inductive OnOff
| unknown
| on
| off
deriving DecidableEq, Repr

/-- Python `__bool__` of `OnOff`: truthy exactly when `on`. -/
def OnOff.toBool : OnOff → Bool
| OnOff.on => true
| _ => false

/-- `State` enum from models.py: state of the lock. -/
inductive State
| locked
| unlocked
| unknown
deriving DecidableEq, Repr

/-- Model of a Python `datetime`: the observations the code makes of it. -/
structure DateTime where
  isoweekday : Int
  hour : Int
  minute : Int
  epoch : ℚ
deriving DecidableEq, Repr

/-- Seconds between two datetimes, `(a - b).total_seconds()`. -/
def DateTime.sub (a b : DateTime) : ℚ := a.epoch - b.epoch

/-- `Lock` model from models.py: lock details returned by `get_lock`
(only the fields the coordinator reads). -/
structure Lock where
  name : String
  mac : String
  model : Option String
  battery_level : Option Int
  featureValue : Option String
  hardwareRevision : Option String
  firmwareRevision : Option String
  autoLockTime : Int
deriving DecidableEq, Repr

namespace Models

/-- `LockState` pydantic model from models.py: response of
`get_lock_state`, and the value computed by `WebhookEvent.state`. -/
structure LockState where
  locked : Option State
deriving DecidableEq, Repr

end Models

/-- `PassageModeConfig` from models.py (after pydantic parsing: null
start/end minutes are already normalized to 0 by its validators). -/
structure PassageModeConfig where
  enabled : OnOff
  start_minute : Int
  end_minute : Int
  all_day : OnOff
  week_days : List Int
  auto_unlock : OnOff
deriving DecidableEq, Repr

/-- `Action` enum from models.py. -/
inductive Action
| unknown
| lock
| unlock
deriving DecidableEq, Repr

/-- `EventDescription` namedtuple from models.py. -/
structure EventDescription where
  action : Action
  description : String
deriving DecidableEq, Repr

namespace Event

/-- The `Event.EVENTS` static table from models.py, in source order. -/
def EVENTS : List (Int × EventDescription) :=
  [ (1, ⟨Action.unlock, "unlock by app"⟩),
    (4, ⟨Action.unlock, "unlock by passcode"⟩),
    (7, ⟨Action.unlock, "unlock by IC card"⟩),
    (8, ⟨Action.unlock, "unlock by fingerprint"⟩),
    (9, ⟨Action.unlock, "unlock by wrist strap"⟩),
    (10, ⟨Action.unlock, "unlock by Mechanical key"⟩),
    (11, ⟨Action.lock, "lock by app"⟩),
    (12, ⟨Action.unlock, "unlock by gateway"⟩),
    (29, ⟨Action.unknown, "apply some force on the Lock"⟩),
    (30, ⟨Action.unknown, "Door sensor closed"⟩),
    (31, ⟨Action.unknown, "Door sensor open"⟩),
    (32, ⟨Action.unknown, "open from inside"⟩),
    (33, ⟨Action.lock, "lock by fingerprint"⟩),
    (34, ⟨Action.lock, "lock by passcode"⟩),
    (35, ⟨Action.lock, "lock by IC card"⟩),
    (36, ⟨Action.lock, "lock by Mechanical key"⟩),
    (37, ⟨Action.unknown, "Remote Control"⟩),
    (42, ⟨Action.unknown, "received new local mail"⟩),
    (43, ⟨Action.unknown, "received new other cities' mail"⟩),
    (44, ⟨Action.unknown, "Tamper alert"⟩),
    (45, ⟨Action.lock, "Auto Lock"⟩),
    (46, ⟨Action.unlock, "unlock by unlock key"⟩),
    (47, ⟨Action.lock, "lock by lock key"⟩),
    (48, ⟨Action.unknown, "System locked ( Caused by, for example: Using INVALID Passcode/Fingerprint/Card several times)"⟩),
    (49, ⟨Action.unlock, "unlock by hotel card"⟩),
    (50, ⟨Action.unlock, "unlocked due to the high temperature"⟩),
    (51, ⟨Action.unknown, "Try to unlock with a deleted card"⟩),
    (52, ⟨Action.unknown, "Dead lock with APP"⟩),
    (53, ⟨Action.unknown, "Dead lock with passcode"⟩),
    (54, ⟨Action.unknown, "The car left (for parking lock)"⟩),
    (55, ⟨Action.unlock, "unlock with key fob"⟩),
    (57, ⟨Action.unlock, "unlock with QR code success"⟩),
    (58, ⟨Action.unknown, "Unlock with QR code failed, it's expired"⟩),
    (59, ⟨Action.unknown, "Double locked"⟩),
    (60, ⟨Action.unknown, "Cancel double lock"⟩),
    (61, ⟨Action.lock, "Lock with QR code success"⟩),
    (62, ⟨Action.unknown, "Lock with QR code failed, the lock is double locked"⟩),
    (63, ⟨Action.unlock, "auto unlock at passage mode"⟩) ]

/-- Association-list lookup, modelling the Python `dict.get` on `EVENTS`
(integer keys compared by equality, first match wins). -/
def findDesc (code : Int) : List (Int × EventDescription) → Option EventDescription
| [] => none
| (k, d) :: rest => if k = code then some d else findDesc code rest

/-- `Event._info` from models.py: `EVENTS.get(code, (unknown, "unknown"))`. -/
def info (code : Int) : EventDescription :=
  (findDesc code EVENTS).getD ⟨Action.unknown, "unknown"⟩

/-- `Event.action` from models.py. -/
def action (code : Int) : Action := (info code).action

/-- `Event.description` from models.py. -/
def description (code : Int) : String := (info code).description

/-- `Event.validate` from models.py: the pydantic validator for the
`recordType` field; raises `ValueError("invalid record")` when the code
is not a key of `EVENTS`. -/
def validate (v : Int) : Except String Int :=
  if (findDesc v EVENTS).isSome then Except.ok v else Except.error "invalid record"

end Event

/-- `WebhookEvent` pydantic model from models.py (the `event` field holds
the validated `recordType` integer code). -/
structure WebhookEvent where
  id : Int
  mac : String
  battery_level : Option Int
  server_ts : DateTime
  lock_ts : DateTime
  event : Int
  user : Option String
  success : Bool
deriving DecidableEq, Repr

/-- `WebhookEvent.state` from models.py: the end state of the lock after
this event. -/
def WebhookEvent.state (e : WebhookEvent) : Models.LockState :=
  if e.success = true ∧ Event.action e.event = Action.lock then ⟨some State.locked⟩
  else if e.success = true ∧ Event.action e.event = Action.unlock then ⟨some State.unlocked⟩
  else ⟨none⟩

namespace Coordinator

/-- `LockState` dataclass from coordinator.py: the per-lock aggregate.
`features` holds the raw `featureValue` the parsed features came from. -/
structure LockState where
  name : String
  mac : String
  model : Option String := none
  battery_level : Option Int := none
  hardware_version : Option String := none
  firmware_version : Option String := none
  features : Option String := none
  locked : Option Bool := none
  action_pending : Bool := false
  last_user : Option String := none
  last_reason : Option String := none
  auto_lock_seconds : Int := -1
  passage_mode_config : Option PassageModeConfig := none
deriving DecidableEq, Repr

/-- `LockState.passage_mode_active` from coordinator.py. -/
def LockState.passage_mode_active (s : LockState) (current_date : DateTime) : Bool :=
  match s.passage_mode_config with
  | some config =>
    if config.enabled.toBool then
      let current_day := current_date.isoweekday
      if current_day ∈ config.week_days then
        if config.all_day.toBool then
          true
        else
          let current_minute := current_date.hour * 60 + current_date.minute
          if config.start_minute ≤ current_minute ∧ current_minute < config.end_minute then
            true
          else
            false
      else false
    else false
  | none => false

/-- `LockState.auto_lock_delay` from coordinator.py. -/
def LockState.auto_lock_delay (s : LockState) (current_date : DateTime) : Option Int :=
  if s.auto_lock_seconds ≤ 0 then none
  else if s.passage_mode_active current_date then none
  else some s.auto_lock_seconds

/-- Result of `LockUpdateCoordinator._process_webhook_data`: the new
aggregate handed to `async_set_updated_data`, and the `(lock_ts,
server_ts)` arguments of the `_handle_auto_lock` call when one is made. -/
structure WebhookResult where
  data : LockState
  auto_lock_call : Option (DateTime × DateTime)
deriving DecidableEq, Repr

/-- `LockUpdateCoordinator._process_webhook_data` from coordinator.py:
how one webhook event transforms the aggregate of the coordinator whose
lock id is `lock_id`. -/
def process_webhook_data (lock_id : Int) (data : LockState) (event : WebhookEvent) :
    WebhookResult :=
  if event.id ≠ lock_id then ⟨data, none⟩
  else if event.success = false then ⟨data, none⟩
  else
    let new1 : LockState := { data with battery_level := event.battery_level }
    let st := event.state
    let step : LockState × Option (DateTime × DateTime) :=
      match st.locked with
      | some State.locked => ({ new1 with locked := some true }, none)
      | some State.unlocked =>
          ({ new1 with locked := some false }, some (event.lock_ts, event.server_ts))
      | some State.unknown => (new1, none)
      | none => (new1, none)
    let final : LockState :=
      if st.locked ≠ none then
        { step.1 with
            last_user := event.user,
            last_reason := some (Event.description event.event) }
      else step.1
    ⟨final, step.2⟩

/-- The one-shot task `LockUpdateCoordinator._handle_auto_lock` creates:
its sleep duration in seconds (the task then fires `autoLocked`). -/
structure AutoLockTask where
  sleep_seconds : ℚ
deriving DecidableEq, Repr

/-- `LockUpdateCoordinator._handle_auto_lock` from coordinator.py:
reading the aggregate `data` at call time, either schedules no task
(auto-lock disabled) or schedules one with the computed sleep. -/
def handle_auto_lock (data : LockState) (lock_ts server_ts : DateTime) :
    Option AutoLockTask :=
  let auto_lock_delay := data.auto_lock_delay lock_ts
  let computed_msg_delay : ℚ := max 0 (server_ts.sub lock_ts)
  match auto_lock_delay with
  | none => none
  | some seconds =>
      some ⟨if 0 < seconds ∧ 0 < (seconds : ℚ) - computed_msg_delay then
              (seconds : ℚ) - computed_msg_delay
            else 0⟩

/-- The body of `_auto_locked` after its sleep: the update applied to the
aggregate as it stands at fire time. -/
def autoLocked (data : LockState) : LockState :=
  { data with locked := some true, last_reason := some "Auto Lock" }

/-- One poll cycle's remote fetches, as the coordinator observes them:
`none` models the call raising (network error, malformed response, or a
non-zero vendor error code turned into `RequestFailed` by
`TTLockApi._parse_resp`). -/
structure PollFetches where
  details : Option Lock
  state : Option Models.LockState
  passage : Option PassageModeConfig
deriving DecidableEq, Repr

/-- `LockUpdateCoordinator._async_update_data` from coordinator.py: one
poll cycle over the previous aggregate (`none` before the first
successful poll). `Except.error` models raising `UpdateFailed`. -/
def async_update_data (prev : Option LockState) (f : PollFetches) :
    Except String LockState :=
  match f.details with
  | none => Except.error "UpdateFailed"
  | some details =>
    let new0 : LockState :=
      match prev with
      | some d => d
      | none =>
          { name := details.name, mac := details.mac, model := details.model,
            features := details.featureValue }
    let new1 : LockState :=
      { new0 with
          name := details.name,
          battery_level := details.battery_level,
          hardware_version := details.hardwareRevision,
          firmware_version := details.firmwareRevision }
    let new2 : LockState :=
      if new1.locked = none then
        match f.state with
        | some st => { new1 with locked := some (decide (st.locked = some State.locked)) }
        | none => new1
      else new1
    let new3 : LockState := { new2 with auto_lock_seconds := details.autoLockTime }
    match f.passage with
    | none => Except.error "UpdateFailed"
    | some config => Except.ok { new3 with passage_mode_config := some config }

/-- Whether a poll cycle succeeded (did not raise `UpdateFailed`). -/
def pollOk (r : Except String LockState) : Bool :=
  match r with
  | Except.ok _ => true
  | Except.error _ => false

/-- Outcome of one remote command call (`TTLockApi.lock` / `unlock`):
the call returns true, returns false (non-zero vendor error code), or
raises (transport fault). -/
inductive ApiOutcome
| success
| vendorError
| transportFault
deriving DecidableEq, Repr

/-- The entry step of the `lock_action` context manager: mark the
command in flight. -/
def lock_action_enter (data : LockState) : LockState :=
  { data with action_pending := true }

/-- The `lock_action` context manager from coordinator.py: runs `body`
on the aggregate with `action_pending` set, and — success or raised
error alike (`finally`) — clears `action_pending` afterwards. The
second component is the error the body raised, re-raised to the caller. -/
def lock_action (body : LockState → LockState × Option String) (data : LockState) :
    LockState × Option String :=
  let d := lock_action_enter data
  let r := body d
  ({ r.1 with action_pending := false }, r.2)

/-- The body of `LockUpdateCoordinator.lock`: call `api.lock`; on a true
result set `locked`; a raised transport fault propagates. -/
def lock_body (outcome : ApiOutcome) (d : LockState) : LockState × Option String :=
  match outcome with
  | ApiOutcome.success => ({ d with locked := some true }, none)
  | ApiOutcome.vendorError => (d, none)
  | ApiOutcome.transportFault => (d, some "transport fault")

/-- The body of `LockUpdateCoordinator.unlock`. -/
def unlock_body (outcome : ApiOutcome) (d : LockState) : LockState × Option String :=
  match outcome with
  | ApiOutcome.success => ({ d with locked := some false }, none)
  | ApiOutcome.vendorError => (d, none)
  | ApiOutcome.transportFault => (d, some "transport fault")

/-- `LockUpdateCoordinator.lock` from coordinator.py, over a given call
outcome. -/
def lock (data : LockState) (outcome : ApiOutcome) : LockState × Option String :=
  lock_action (lock_body outcome) data

/-- `LockUpdateCoordinator.unlock` from coordinator.py, over a given
call outcome. -/
def unlock (data : LockState) (outcome : ApiOutcome) : LockState × Option String :=
  lock_action (unlock_body outcome) data

end Coordinator

/-! ## Helper lemmas -/

theorem OnOff.toBool_eq_true {o : OnOff} : o.toBool = true ↔ o = OnOff.on := by
  cases o <;> simp [OnOff.toBool]

theorem findDesc_eq_of_mem :
    ∀ (l : List (Int × EventDescription)) (c : Int) (d : EventDescription),
      (l.map Prod.fst).Nodup → (c, d) ∈ l → Event.findDesc c l = some d := by
  intro l
  induction l with
  | nil => intro c d _ hm; cases hm
  | cons hd tl ih =>
    intro c d hnd hm
    rcases hd with ⟨k, v⟩
    simp only [List.map_cons, List.nodup_cons] at hnd
    rcases List.mem_cons.mp hm with heq | htl
    · cases heq
      simp [Event.findDesc]
    · have hk : k ≠ c := by
        intro hkc
        subst hkc
        have : (k : Int) ∈ tl.map Prod.fst := by
          simpa using List.mem_map_of_mem Prod.fst htl
        exact hnd.1 this
      simp only [Event.findDesc, if_neg hk]
      exact ih c d hnd.2 htl

theorem findDesc_eq_none :
    ∀ (l : List (Int × EventDescription)) (c : Int),
      (∀ d, (c, d) ∉ l) → Event.findDesc c l = none := by
  intro l
  induction l with
  | nil => intro c _; rfl
  | cons hd tl ih =>
    intro c hnm
    rcases hd with ⟨k, v⟩
    have hk : k ≠ c := by
      intro hkc
      subst hkc
      exact hnm v (List.mem_cons_self _ _)
    simp only [Event.findDesc, if_neg hk]
    exact ih c fun d hd => hnm d (List.mem_cons_of_mem _ hd)

theorem mem_of_findDesc :
    ∀ (l : List (Int × EventDescription)) (c : Int) (d : EventDescription),
      Event.findDesc c l = some d → (c, d) ∈ l := by
  intro l
  induction l with
  | nil => intro c d h; cases h
  | cons hd tl ih =>
    intro c d h
    rcases hd with ⟨k, v⟩
    by_cases hk : k = c
    · subst hk
      simp only [Event.findDesc, if_pos rfl] at h
      cases h
      exact List.mem_cons_self _ _
    · simp only [Event.findDesc, if_neg hk] at h
      exact List.mem_cons_of_mem _ (ih c d h)

theorem events_keys_nodup : (Event.EVENTS.map Prod.fst).Nodup := by
  decide

/-! ## Claims -/

/-- C5: `passage_mode_active` returns false when the config is absent or
not enabled, and otherwise returns true iff the weekday of the given
time (1=Monday..7=Sunday) is in `week_days` and (`all_day` is on, or
`start_minute ≤ hour*60+minute < end_minute`); the minute window is
half-open, so a window ending at minute 720 is active at minute 719
(11:59) but not at 720 (12:00). -/
theorem passage_mode_active_spec :
    (∀ (s : Coordinator.LockState) (t : DateTime),
      s.passage_mode_active t = true ↔
        ∃ config, s.passage_mode_config = some config ∧ config.enabled = OnOff.on ∧
          t.isoweekday ∈ config.week_days ∧
          (config.all_day = OnOff.on ∨
            (config.start_minute ≤ t.hour * 60 + t.minute ∧
              t.hour * 60 + t.minute < config.end_minute))) ∧
    Coordinator.LockState.passage_mode_active
        { name := "L", mac := "m",
          passage_mode_config :=
            some ⟨OnOff.on, 0, 720, OnOff.off, [1, 2, 3, 4, 5, 6, 7], OnOff.off⟩ }
        ⟨1, 11, 59, 0⟩ = true ∧
    Coordinator.LockState.passage_mode_active
        { name := "L", mac := "m",
          passage_mode_config :=
            some ⟨OnOff.on, 0, 720, OnOff.off, [1, 2, 3, 4, 5, 6, 7], OnOff.off⟩ }
        ⟨1, 12, 0, 0⟩ = false := by
  refine ⟨?_, by decide, by decide⟩
  intro s t
  rcases hc : s.passage_mode_config with _ | config
  · simp [Coordinator.LockState.passage_mode_active, hc]
  · simp only [Coordinator.LockState.passage_mode_active, hc, Option.some.injEq]
    split_ifs with h1 h2 h3 h4 <;>
      simp_all [OnOff.toBool_eq_true]

/-- C6: `auto_lock_delay` returns none if `auto_lock_seconds ≤ 0`,
returns none if passage mode is active at that time, and otherwise
returns exactly `auto_lock_seconds`. -/
theorem auto_lock_delay_spec :
    ∀ (s : Coordinator.LockState) (t : DateTime),
      (s.auto_lock_seconds ≤ 0 → s.auto_lock_delay t = none) ∧
      (s.passage_mode_active t = true → s.auto_lock_delay t = none) ∧
      (0 < s.auto_lock_seconds → s.passage_mode_active t = false →
        s.auto_lock_delay t = some s.auto_lock_seconds) := by
  intro s t
  unfold Coordinator.LockState.auto_lock_delay
  refine ⟨fun h => by simp [h], fun h => ?_, fun h1 h2 => ?_⟩
  · split_ifs <;> simp_all
  · split_ifs with ha hp
    · omega
    · simp_all
    · rfl

/-- Witness for C6 at concrete inputs: each branch exercised. -/
theorem auto_lock_delay_spec_witness :
    Coordinator.LockState.auto_lock_delay
        { name := "L", mac := "m", auto_lock_seconds := 30 } ⟨1, 0, 0, 0⟩ = some 30 ∧
    Coordinator.LockState.auto_lock_delay
        { name := "L", mac := "m" } ⟨1, 0, 0, 0⟩ = none ∧
    Coordinator.LockState.auto_lock_delay
        { name := "L", mac := "m", auto_lock_seconds := 30,
          passage_mode_config :=
            some ⟨OnOff.on, 0, 0, OnOff.on, [1, 2, 3, 4, 5, 6, 7], OnOff.off⟩ }
        ⟨1, 0, 0, 0⟩ = none :=
  ⟨(auto_lock_delay_spec _ _).2.2 (by decide) (by decide),
   (auto_lock_delay_spec _ _).1 (by decide),
   (auto_lock_delay_spec _ _).2.1 (by decide)⟩

/-- C9: for every execution of the `lock()` or `unlock()` command, the
aggregate's `action_pending` flag is set on entry to the `lock_action`
scope and is false on every exit path: remote call success, vendor-error
failure return, or a raised exception. -/
theorem action_pending_cleared :
    ∀ (data : Coordinator.LockState) (outcome : Coordinator.ApiOutcome),
      (Coordinator.lock data outcome).1.action_pending = false ∧
      (Coordinator.unlock data outcome).1.action_pending = false ∧
      (Coordinator.lock_action_enter data).action_pending = true := by
  intro data outcome
  cases outcome <;>
    exact ⟨rfl, rfl, rfl⟩

/-- C1 counterexample: a webhook event with `success = false` that
carries a battery level (55) leaves the aggregate's `battery_level` at
its prior value (30) — the claim says it would be updated to 55. -/
theorem webhook_failed_event_counterexample :
    (Coordinator.process_webhook_data 7
        { name := "L", mac := "m", battery_level := some 30 }
        { id := 7, mac := "m", battery_level := some 55, server_ts := ⟨1, 0, 0, 0⟩,
          lock_ts := ⟨1, 0, 0, 0⟩, event := 1, user := some "bob",
          success := false }).data.battery_level = some 30 ∧
    (WebhookEvent.battery_level
        { id := 7, mac := "m", battery_level := some 55, server_ts := ⟨1, 0, 0, 0⟩,
          lock_ts := ⟨1, 0, 0, 0⟩, event := 1, user := some "bob",
          success := false }) = some 55 := by
  exact ⟨rfl, rfl⟩

/-- C1 (amended): processing a webhook event whose success flag is false
changes nothing at all: the aggregate is returned unchanged — including
`battery_level` — and no auto-lock call is made. -/
theorem webhook_failed_event_no_change :
    ∀ (lock_id : Int) (data : Coordinator.LockState) (e : WebhookEvent),
      e.success = false →
      Coordinator.process_webhook_data lock_id data e = ⟨data, none⟩ := by
  intro lock_id data e h
  unfold Coordinator.process_webhook_data
  rw [h]
  split_ifs with h1 h2
  · rfl
  · rfl
  · exact absurd rfl h2

/-- Witness for the amended C1 at a concrete input. -/
theorem webhook_failed_event_no_change_witness :
    Coordinator.process_webhook_data 7
        { name := "L", mac := "m", battery_level := some 30 }
        { id := 7, mac := "m", battery_level := some 55, server_ts := ⟨1, 0, 0, 0⟩,
          lock_ts := ⟨1, 0, 0, 0⟩, event := 1, user := some "bob", success := false }
      = ⟨{ name := "L", mac := "m", battery_level := some 30 }, none⟩ :=
  webhook_failed_event_no_change 7 _ _ rfl

/-- C2 counterexample: a successful event whose derived resulting state
is none (record type 29, action unknown) leaves `last_user` and
`last_reason` unchanged — the claim says they would be set to the
event's actor ("bob") and description. -/
theorem webhook_none_state_counterexample :
    (Coordinator.process_webhook_data 7
        { name := "L", mac := "m", last_user := some "alice", last_reason := some "old" }
        { id := 7, mac := "m", battery_level := some 55, server_ts := ⟨1, 0, 0, 0⟩,
          lock_ts := ⟨1, 0, 0, 0⟩, event := 29, user := some "bob",
          success := true }).data.last_user = some "alice" ∧
    (Coordinator.process_webhook_data 7
        { name := "L", mac := "m", last_user := some "alice", last_reason := some "old" }
        { id := 7, mac := "m", battery_level := some 55, server_ts := ⟨1, 0, 0, 0⟩,
          lock_ts := ⟨1, 0, 0, 0⟩, event := 29, user := some "bob",
          success := true }).data.last_reason = some "old" := by
  exact ⟨rfl, rfl⟩

/-- C2 (amended): for a successful event whose derived resulting state
is none (action neither lock nor unlock), processing updates
`battery_level` only: `locked`, `last_user` and `last_reason` are all
unchanged, and no auto-lock call is made. -/
theorem webhook_none_state_updates_battery_only :
    ∀ (lock_id : Int) (data : Coordinator.LockState) (e : WebhookEvent),
      e.id = lock_id → e.success = true → (e.state).locked = none →
      Coordinator.process_webhook_data lock_id data e =
        ⟨{ data with battery_level := e.battery_level }, none⟩ := by
  intro lock_id data e h1 h2 h3
  unfold Coordinator.process_webhook_data
  simp [h1, h2, h3]

/-- Witness for the amended C2 at a concrete input. -/
theorem webhook_none_state_updates_battery_only_witness :
    Coordinator.process_webhook_data 7
        { name := "L", mac := "m", last_user := some "alice", last_reason := some "old" }
        { id := 7, mac := "m", battery_level := some 55, server_ts := ⟨1, 0, 0, 0⟩,
          lock_ts := ⟨1, 0, 0, 0⟩, event := 29, user := some "bob", success := true }
      = ⟨{ name := "L", mac := "m", battery_level := some 55,
           last_user := some "alice", last_reason := some "old" }, none⟩ :=
  webhook_none_state_updates_battery_only 7 _ _ rfl rfl (by decide)

/-- C10: for every successful webhook event routed to its coordinator,
processing overwrites the aggregate's `battery_level` with the event's
value unconditionally; in particular an event with no battery reading
resets a previously known battery level to none. -/
theorem webhook_battery_overwrite :
    ∀ (lock_id : Int) (data : Coordinator.LockState) (e : WebhookEvent),
      e.id = lock_id → e.success = true →
      (Coordinator.process_webhook_data lock_id data e).data.battery_level
          = e.battery_level ∧
      (e.battery_level = none →
        (Coordinator.process_webhook_data lock_id data e).data.battery_level = none) := by
  intro lock_id data e h1 h2
  have hb : (Coordinator.process_webhook_data lock_id data e).data.battery_level
      = e.battery_level := by
    unfold Coordinator.process_webhook_data
    rcases hst : (e.state).locked with _ | st
    · simp [h1, h2, hst]
    · cases st <;> simp [h1, h2, hst]
  exact ⟨hb, fun hn => hn ▸ hb⟩

/-- Witness for C10 at a concrete input: a successful event without a
battery reading resets a known battery level (80) to none. -/
theorem webhook_battery_overwrite_witness :
    (Coordinator.process_webhook_data 7
        { name := "L", mac := "m", battery_level := some 80 }
        { id := 7, mac := "m", battery_level := none, server_ts := ⟨1, 0, 0, 0⟩,
          lock_ts := ⟨1, 0, 0, 0⟩, event := 11, user := some "bob",
          success := true }).data.battery_level = none :=
  (webhook_battery_overwrite 7 _ _ rfl rfl).2 rfl

/-- C3 counterexample: a poll cycle whose open/locked-state fetch fails
(while device details and passage-mode config succeed) still returns a
merged result — the failure is swallowed by the inner handler — so the
cycle does not fail as the claim states. -/
theorem poll_state_fetch_failure_counterexample :
    Coordinator.pollOk
        (Coordinator.async_update_data
          (some { name := "L", mac := "m" })
          { details := some ⟨"L", "m", none, some 50, none, none, none, 30⟩,
            state := none,
            passage := some ⟨OnOff.off, 0, 0, OnOff.off, [], OnOff.off⟩ })
      = true := by
  rfl

/-- C3 (amended): a poll cycle fails (raises `UpdateFailed`) exactly
when the device-details fetch or the passage-mode-config fetch fails; a
failure of the open/locked-state fetch is swallowed — the `locked` field
is simply left unchanged and the cycle still returns a merged result. -/
theorem poll_failure_spec :
    ∀ (prev : Option Coordinator.LockState) (f : Coordinator.PollFetches),
      Coordinator.pollOk (Coordinator.async_update_data prev f)
        = (f.details.isSome && f.passage.isSome) := by
  intro prev f
  rcases f with ⟨details, state, passage⟩
  rcases details with _ | d
  · rfl
  · rcases passage with _ | p <;> rfl

/-- C7: a poll cycle consults the remote open/locked state only when the
aggregate's `locked` field is currently unknown: with `locked` known
(`some b`), any successful cycle returns `locked` still equal to
`some b`, and the cycle's outcome is identical whatever the state fetch
returned. -/
theorem poll_preserves_known_locked :
    ∀ (prev : Coordinator.LockState) (f : Coordinator.PollFetches) (b : Bool),
      prev.locked = some b →
      (∀ r, Coordinator.async_update_data (some prev) f = Except.ok r →
        r.locked = some b) ∧
      Coordinator.async_update_data (some prev) f
        = Coordinator.async_update_data (some prev) { f with state := none } := by
  intro prev f b hb
  rcases f with ⟨details, state, passage⟩
  rcases details with _ | d
  · exact ⟨fun r hr => (nomatch hr), rfl⟩
  · rcases passage with _ | p
    · refine ⟨fun r hr => ?_, ?_⟩
      · rw [show Coordinator.async_update_data (some prev)
              ⟨some d, state, none⟩ = Except.error "UpdateFailed" from rfl] at hr
        cases hr
      · rfl
    · constructor
      · intro r hr
        simp only [Coordinator.async_update_data] at hr
        rw [if_neg (by simp [hb])] at hr
        cases hr
        simp [hb]
      · simp only [Coordinator.async_update_data]
        rw [if_neg (by simp [hb]), if_neg (by simp [hb])]

/-- Witness for C7 at a concrete input: with `locked` already known
(`some true`), a cycle whose state fetch reports `unlocked` produces the
same outcome as one whose state fetch failed. -/
theorem poll_preserves_known_locked_witness :
    Coordinator.async_update_data
        (some { name := "L", mac := "m", locked := some true })
        { details := some ⟨"L", "m", none, some 50, none, none, none, 30⟩,
          state := some ⟨some State.unlocked⟩,
          passage := some ⟨OnOff.off, 0, 0, OnOff.off, [], OnOff.off⟩ }
      = Coordinator.async_update_data
          (some { name := "L", mac := "m", locked := some true })
          { details := some ⟨"L", "m", none, some 50, none, none, none, 30⟩,
            state := none,
            passage := some ⟨OnOff.off, 0, 0, OnOff.off, [], OnOff.off⟩ } :=
  (poll_preserves_known_locked _ _ true rfl).2

/-- C8: the auto-lock scheduler does nothing when `auto_lock_delay` at
the event's device timestamp is none; otherwise the scheduled task
sleeps `max 0 (delay - transit_offset)` seconds where `transit_offset =
max 0 (server_ts - lock_ts)`, and on firing the aggregate gets
`locked = some true` and `last_reason = "Auto Lock"` with `last_user`
unchanged. -/
theorem handle_auto_lock_spec :
    ∀ (data : Coordinator.LockState) (lock_ts server_ts : DateTime),
      (data.auto_lock_delay lock_ts = none →
        Coordinator.handle_auto_lock data lock_ts server_ts = none) ∧
      (∀ d : Int, data.auto_lock_delay lock_ts = some d →
        Coordinator.handle_auto_lock data lock_ts server_ts =
          some ⟨max 0 ((d : ℚ) - max 0 (server_ts.sub lock_ts))⟩) ∧
      (∀ s : Coordinator.LockState,
        (Coordinator.autoLocked s).locked = some true ∧
        (Coordinator.autoLocked s).last_reason = some "Auto Lock" ∧
        (Coordinator.autoLocked s).last_user = s.last_user) := by
  intro data lock_ts server_ts
  refine ⟨fun h => ?_, fun d hd => ?_, fun s => ⟨rfl, rfl, rfl⟩⟩
  · unfold Coordinator.handle_auto_lock
    rw [h]
  · have hdpos : 0 < d := by
      unfold Coordinator.LockState.auto_lock_delay at hd
      split_ifs at hd
      cases hd
      omega
    unfold Coordinator.handle_auto_lock
    rw [hd]
    show some (Coordinator.AutoLockTask.mk
          (if 0 < d ∧ 0 < (d : ℚ) - max 0 (server_ts.sub lock_ts) then
            (d : ℚ) - max 0 (server_ts.sub lock_ts) else 0))
        = some (Coordinator.AutoLockTask.mk (max 0 ((d : ℚ) - max 0 (server_ts.sub lock_ts))))
    rcases lt_or_le 0 ((d : ℚ) - max 0 (server_ts.sub lock_ts)) with hpos | hneg
    · rw [if_pos ⟨hdpos, hpos⟩, max_eq_right hpos.le]
    · rw [if_neg (fun hcon => absurd hcon.2 (not_lt.mpr hneg)), max_eq_left hneg]

/-- Witness for C8 at a concrete input: delay 30s, event delivered 5s
after the device timestamp, so the task sleeps 25s. -/
theorem handle_auto_lock_spec_witness :
    Coordinator.handle_auto_lock
        { name := "L", mac := "m", auto_lock_seconds := 30 }
        ⟨1, 0, 0, 0⟩ ⟨1, 0, 0, 5⟩
      = some ⟨25⟩ := by
  have h := (handle_auto_lock_spec
      { name := "L", mac := "m", auto_lock_seconds := 30 }
      ⟨1, 0, 0, 0⟩ ⟨1, 0, 0, 5⟩).2.1 30 (by decide)
  rw [h]
  norm_num [DateTime.sub]

/-- C4 counterexample: deriving `(action, description)` from code 2 (not
in the table) indeed yields `(unknown, "unknown")` without failing, yet
`Event.validate` rejects a record carrying code 2 with
`ValueError("invalid record")` — so an otherwise well-formed record with
an unrecognized record-type code is not accepted, contrary to the
claim. -/
theorem event_unknown_code_rejected_counterexample :
    Event.validate 2 = Except.error "invalid record" ∧
    Event.info 2 = ⟨Action.unknown, "unknown"⟩ := by
  exact ⟨rfl, rfl⟩

/-- C4 (amended): deriving `(action, description)` never fails — codes
present in the static table yield exactly the table's pair and all other
codes yield `(unknown, "unknown")` — but the pydantic field validator
`Event.validate` accepts exactly the codes present in the table, so an
event record carrying an unrecognized record-type code is rejected
rather than accepted. -/
theorem event_info_total_but_validate_rejects :
    ∀ (c : Int),
      (∀ d : EventDescription, (c, d) ∈ Event.EVENTS → Event.info c = d) ∧
      ((∀ d : EventDescription, (c, d) ∉ Event.EVENTS) →
        Event.info c = ⟨Action.unknown, "unknown"⟩) ∧
      ((∃ d, (c, d) ∈ Event.EVENTS) ↔ Event.validate c = Except.ok c) ∧
      ((∀ d : EventDescription, (c, d) ∉ Event.EVENTS) →
        Event.validate c = Except.error "invalid record") := by
  intro c
  refine ⟨fun d hm => ?_, fun hn => ?_, ⟨fun he => ?_, fun hv => ?_⟩, fun hn => ?_⟩
  · unfold Event.info
    rw [findDesc_eq_of_mem Event.EVENTS c d events_keys_nodup hm]
    rfl
  · unfold Event.info
    rw [findDesc_eq_none Event.EVENTS c hn]
    rfl
  · rcases he with ⟨d, hm⟩
    unfold Event.validate
    rw [findDesc_eq_of_mem Event.EVENTS c d events_keys_nodup hm]
    rfl
  · unfold Event.validate at hv
    split_ifs at hv with hs
    rcases Option.isSome_iff_exists.mp hs with ⟨d, hd⟩
    exact ⟨d, mem_of_findDesc Event.EVENTS c d hd⟩
  · unfold Event.validate
    rw [findDesc_eq_none Event.EVENTS c hn]
    rfl

/-- Witness for the amended C4 at concrete codes: 45 is in the table
(and accepted), 2 is not (and yields the fallback). -/
theorem event_info_total_but_validate_rejects_witness :
    Event.info 45 = ⟨Action.lock, "Auto Lock"⟩ ∧
    Event.info 2 = ⟨Action.unknown, "unknown"⟩ ∧
    Event.validate 45 = Except.ok 45 :=
  ⟨(event_info_total_but_validate_rejects 45).1 ⟨Action.lock, "Auto Lock"⟩ (by decide),
   (event_info_total_but_validate_rejects 2).2.1
     (fun d hd => absurd (by simpa using List.mem_map_of_mem Prod.fst hd)
       (by decide : ¬ (2 : Int) ∈ Event.EVENTS.map Prod.fst)),
   (event_info_total_but_validate_rejects 45).2.2.1.mp
     ⟨⟨Action.lock, "Auto Lock"⟩, by decide⟩⟩

end TTLock
